import Mathlib

/-!
Verification development for the admin session/authentication core of the
photoboot repository (`src/app/admin/auth.py`, class `AdminAuth`).

Modelling conventions (shallow embedding of the Python source):

* Timestamps (`time.time()` values) are modelled as `Int`.  The source uses
  floats, but every comparison in the auth core is an order/arithmetic
  comparison on timestamps, which `Int` captures exactly (the claims under
  study are about strict/non-strict boundaries, not float rounding).
* The `itsdangerous.URLSafeTimedSerializer` is modelled abstractly: a token
  minted by `serializer.dumps(data)` is `Token.signed data signedAt` where
  `signedAt` is the clock reading at signing time (itsdangerous embeds the
  signing timestamp); any string that was not produced by this serializer is
  `Token.forged s` and fails signature verification.  `loads(token, max_age)`
  succeeds exactly when the token is genuine and `now - signedAt ≤ max_age`
  (itsdangerous raises `SignatureExpired` when `age > max_age`).
* The session stores (the Redis backend and the in-memory fallback
  `active_sessions` dict) are association lists from tokens to session
  dicts.  A Python dict has no duplicate keys; theorems that need this carry
  a `Nodup` hypothesis on the key list.
* Redis reachability is a per-call boolean parameter `reach`; an
  unreachable Redis raises inside the `try`, which the source catches and
  answers with the in-memory fallback.  Redis' native TTL expiry is not
  modelled (no claim under study depends on it).
* `bcrypt.checkpw` is out of scope for the spec ("bcrypt verification is a
  single call, not re-specified"); it is an abstract boolean parameter
  `checkpw` of `authenticate`.
-/

/-- A session payload dict: `{"username": ..., "login_time": ..., "expires_at": ...}`. -/
structure SessionData where
  username : String
  login_time : Int
  expires_at : Int
deriving DecidableEq, Repr

/-- A token string.  `signed d ts` is the output of `serializer.dumps d` at
clock reading `ts`; `forged s` is any other string (its signature does not
verify). -/
inductive Token where
  | signed (data : SessionData) (signedAt : Int) : Token
  | forged (s : String) : Token
deriving DecidableEq, Repr

/-- Errors raised by `serializer.loads`. -/
inductive DecodeError where
  | badSignature : DecodeError
  | signatureExpired : DecodeError
deriving DecidableEq, Repr

/-- `serializer.dumps(session_data)` at clock reading `now`. -/
def serializer_dumps (d : SessionData) (now : Int) : Token :=
  Token.signed d now

/-- `serializer.loads(token, max_age)` at clock reading `now`: verify the
signature, then raise `SignatureExpired` when the embedded age exceeds
`max_age`. -/
def serializer_loads (t : Token) (maxAge : Int) (now : Int) :
    Except DecodeError SessionData :=
  match t with
  | Token.forged _ => Except.error DecodeError.badSignature
  | Token.signed d ts =>
      if now - ts > maxAge then Except.error DecodeError.signatureExpired
      else Except.ok d

/-- A session store (Python dict keyed by token), as an association list. -/
abbrev Store := List (Token × SessionData)

/-- Dict lookup `store.get(token)`. -/
def storeGet (t : Token) : Store → Option SessionData
  | [] => none
  | (k, v) :: rest => if k = t then some v else storeGet t rest

/-- Dict assignment `store[token] = data` (overwrite in place, else append). -/
def storePut (t : Token) (d : SessionData) : Store → Store
  | [] => [(t, d)]
  | (k, v) :: rest =>
      if k = t then (t, d) :: rest else (k, v) :: storePut t d rest

/-- `if token in store: del store[token]; return True else return False`. -/
def storeDelete (t : Token) : Store → Bool × Store
  | [] => (false, [])
  | (k, v) :: rest =>
      if k = t then (true, rest)
      else
        let p := storeDelete t rest
        (p.1, (k, v) :: p.2)

namespace AdminAuth

/-- The mutable state of an `AdminAuth` instance: the `use_redis` flag fixed
at `__init__`, the contents of the Redis backend, and the in-memory
`active_sessions` dict. -/
structure AuthState where
  use_redis : Bool
  redis_store : Store
  active_sessions : Store
deriving DecidableEq, Repr

/-- `_cleanup_expired_sessions`: with Redis, expiry is native and the method
returns 0; otherwise every in-memory entry with `current_time > expires_at`
is deleted and the count of deleted entries returned. -/
def cleanup_expired_sessions (now : Int) (st : AuthState) : Nat × AuthState :=
  if st.use_redis then (0, st)
  else
    let expired := st.active_sessions.filter (fun p => decide (now > p.2.expires_at))
    let kept := st.active_sessions.filter (fun p => !decide (now > p.2.expires_at))
    (expired.length, { st with active_sessions := kept })

/-- `__init__`: `use_redis` is set exactly when Redis is importable/configured
and the initial `ping()` succeeds (`reach_at_init`); both stores start empty
and `_cleanup_expired_sessions` runs once. -/
def initState (redis_configured : Bool) (reach_at_init : Bool) (now : Int) : AuthState :=
  (cleanup_expired_sessions now
    { use_redis := redis_configured && reach_at_init
      redis_store := []
      active_sessions := [] }).2

/-- `_store_session`: write to Redis when `use_redis` and the call-time
connection works; a raised exception (unreachable Redis) is caught and the
record written to the in-memory dict instead.  Always returns `True`. -/
def store_session (reach : Bool) (t : Token) (d : SessionData) (st : AuthState) :
    Bool × AuthState :=
  if st.use_redis then
    if reach then (true, { st with redis_store := storePut t d st.redis_store })
    else (true, { st with active_sessions := storePut t d st.active_sessions })
  else (true, { st with active_sessions := storePut t d st.active_sessions })

/-- `_get_session`: read from Redis when `use_redis` and reachable; a raised
exception falls back to the in-memory dict. -/
def get_session (reach : Bool) (t : Token) (st : AuthState) : Option SessionData :=
  if st.use_redis then
    if reach then storeGet t st.redis_store
    else storeGet t st.active_sessions
  else storeGet t st.active_sessions

/-- `_delete_session`: delete from Redis when `use_redis` and reachable
(returns whether a key was deleted); a raised exception falls back to the
in-memory dict. -/
def delete_session (reach : Bool) (t : Token) (st : AuthState) : Bool × AuthState :=
  if st.use_redis then
    if reach then
      let p := storeDelete t st.redis_store
      (p.1, { st with redis_store := p.2 })
    else
      let p := storeDelete t st.active_sessions
      (p.1, { st with active_sessions := p.2 })
  else
    let p := storeDelete t st.active_sessions
    (p.1, { st with active_sessions := p.2 })

/-- The `LoginRequest` pydantic model. -/
structure LoginRequest where
  username : String
  password : String
deriving DecidableEq, Repr

/-- The `LoginResponse` pydantic model. -/
structure LoginResponse where
  success : Bool
  message : String
  token : Option Token := none
deriving DecidableEq, Repr

/-- The `LogoutResponse` pydantic model. -/
structure LogoutResponse where
  success : Bool
  message : String
deriving DecidableEq, Repr

/-- `authenticate`: reject a wrong username, then a wrong password, with the
same generic message; otherwise build the session dict, mint the token via
`serializer.dumps`, store it and answer success.  `checkpw` abstracts
`bcrypt.checkpw` (which never throws past `_verify_password`). -/
def authenticate (admin_username admin_password_hash : String)
    (checkpw : String → String → Bool) (session_timeout : Int)
    (reach : Bool) (now : Int) (req : LoginRequest) (st : AuthState) :
    LoginResponse × AuthState :=
  if req.username ≠ admin_username then
    ({ success := false, message := "Nom d\x27utilisateur ou mot de passe incorrect" }, st)
  else if checkpw req.password admin_password_hash = false then
    ({ success := false, message := "Nom d\x27utilisateur ou mot de passe incorrect" }, st)
  else
    let d : SessionData :=
      { username := req.username, login_time := now, expires_at := now + session_timeout }
    let token := serializer_dumps d now
    let st' := (store_session reach token d st).2
    ({ success := true, message := "Connexion réussie", token := some token }, st')

/-- `validate_session`: look the token up in the store; if found and
`now > expires_at`, delete it and answer `None`, else answer the record.  If
absent from the store, fall back to `serializer.loads(token, max_age =
session_timeout)`: on success re-admit the token into the store and answer
`_get_session(token)`; `SignatureExpired`/`BadSignature` answer `None`. -/
def validate_session (session_timeout : Int) (reach : Bool) (now : Int)
    (t : Token) (st : AuthState) : Option SessionData × AuthState :=
  match get_session reach t st with
  | some d =>
      if now > d.expires_at then (none, (delete_session reach t st).2)
      else (some d, st)
  | none =>
      match serializer_loads t session_timeout now with
      | Except.ok d =>
          let st' := (store_session reach t d st).2
          (get_session reach t st', st')
      | Except.error _ => (none, st)

/-- `logout`: call `_delete_session`; when it deleted a record, the source
then evaluates `self._get_session(token).get("username", "unknown")` — but
the record was just deleted, so `_get_session` returns `None` and the
attribute access raises, which the enclosing `except` turns into the error
response; only when `_get_session` still finds a record is the success
response reached.  When nothing was deleted, answer "Session non trouvée". -/
def logout (reach : Bool) (t : Token) (st : AuthState) : LogoutResponse × AuthState :=
  let p := delete_session reach t st
  if p.1 then
    match get_session reach t p.2 with
    | some _ => ({ success := true, message := "Déconnexion réussie" }, p.2)
    | none => ({ success := false, message := "Erreur lors de la déconnexion" }, p.2)
  else ({ success := false, message := "Session non trouvée" }, p.2)

/-- `refresh_session`: look the token up; if found, set the record's
`expires_at` to `now + session_timeout`, mint a new token from the updated
record, store under the new token, then delete the old token, and return the
new token; if absent, return `None`. -/
def refresh_session (session_timeout : Int) (reach : Bool) (now : Int)
    (t : Token) (st : AuthState) : Option Token × AuthState :=
  match get_session reach t st with
  | some d =>
      let d' := { d with expires_at := now + session_timeout }
      let newToken := serializer_dumps d' now
      let st1 := (store_session reach newToken d' st).2
      let st2 := (delete_session reach t st1).2
      (some newToken, st2)
  | none => (none, st)

end AdminAuth

/-! ### Concrete states used by the counterexamples and witnesses -/

/-- A live session payload: logged in at time 0 with `session_timeout = 100`. -/
def demoData : SessionData := { username := "admin", login_time := 0, expires_at := 100 }

/-- The token minted for `demoData` at login time 0. -/
def demoToken : Token := Token.signed demoData 0

/-- An in-memory-backend manager state holding the single live session `demoToken`. -/
def demoState : AdminAuth.AuthState :=
  { use_redis := false, redis_store := [], active_sessions := [(demoToken, demoData)] }

/-- A live session payload: logged in at time 0 with `session_timeout = 10`. -/
def demoDataB : SessionData := { username := "admin", login_time := 0, expires_at := 10 }

/-- The token minted for `demoDataB` at login time 0. -/
def demoTokenB : Token := Token.signed demoDataB 0

/-- An in-memory-backend manager state holding the single live session `demoTokenB`. -/
def demoStateB : AdminAuth.AuthState :=
  { use_redis := false, redis_store := [], active_sessions := [(demoTokenB, demoDataB)] }

/-- A manager state whose `__init__` found Redis reachable (`use_redis = True`). -/
def demoRedisState : AdminAuth.AuthState :=
  { use_redis := true, redis_store := [], active_sessions := [] }

/-! ### Association-list store lemmas -/

theorem storeGet_storePut_self (t : Token) (d : SessionData) (s : Store) :
    storeGet t (storePut t d s) = some d := by
  induction s with
  | nil => simp [storePut, storeGet]
  | cons p rest ih =>
      obtain ⟨k, v⟩ := p
      by_cases hk : k = t
      · simp [storePut, storeGet, hk]
      · simp [storePut, storeGet, hk, ih]

theorem storeGet_storePut_ne (t t' : Token) (d : SessionData) (s : Store)
    (h : t' ≠ t) : storeGet t' (storePut t d s) = storeGet t' s := by
  have h' : ¬ t = t' := fun he => h he.symm
  induction s with
  | nil => simp [storePut, storeGet, h']
  | cons p rest ih =>
      obtain ⟨k, v⟩ := p
      by_cases hk : k = t
      · subst hk
        simp [storePut, storeGet, h']
      · simp [storePut, storeGet, hk, ih]

theorem storeGet_eq_none_of_not_mem (t : Token) (s : Store)
    (h : t ∉ s.map Prod.fst) : storeGet t s = none := by
  induction s with
  | nil => simp [storeGet]
  | cons p rest ih =>
      obtain ⟨k, v⟩ := p
      simp only [List.map_cons, List.mem_cons] at h
      push_neg at h
      have h1 : ¬ k = t := fun he => h.1 he.symm
      simp [storeGet, h1, ih h.2]

theorem mem_keys_storePut (t t' : Token) (d : SessionData) (s : Store) :
    t' ∈ (storePut t d s).map Prod.fst ↔ t' = t ∨ t' ∈ s.map Prod.fst := by
  induction s with
  | nil => simp [storePut]
  | cons p rest ih =>
      obtain ⟨k, v⟩ := p
      by_cases hk : k = t
      · subst hk
        simp [storePut]
      · simp only [storePut, hk, if_false, List.map_cons, List.mem_cons, ih]
        tauto

theorem keys_nodup_storePut (t : Token) (d : SessionData) (s : Store)
    (h : (s.map Prod.fst).Nodup) : ((storePut t d s).map Prod.fst).Nodup := by
  induction s with
  | nil => simp [storePut]
  | cons p rest ih =>
      obtain ⟨k, v⟩ := p
      simp only [List.map_cons, List.nodup_cons] at h
      by_cases hk : k = t
      · subst hk
        simpa [storePut] using h
      · simp only [storePut, hk, if_false, List.map_cons, List.nodup_cons]
        refine ⟨fun hc => ?_, ih h.2⟩
        rw [mem_keys_storePut] at hc
        rcases hc with he | hm
        · exact hk he
        · exact h.1 hm

theorem storeGet_storeDelete_self (t : Token) (s : Store)
    (h : (s.map Prod.fst).Nodup) : storeGet t (storeDelete t s).2 = none := by
  induction s with
  | nil => simp [storeDelete, storeGet]
  | cons p rest ih =>
      obtain ⟨k, v⟩ := p
      simp only [List.map_cons, List.nodup_cons] at h
      by_cases hk : k = t
      · subst hk
        simp only [storeDelete, if_pos rfl]
        exact storeGet_eq_none_of_not_mem _ _ h.1
      · simp [storeDelete, hk, storeGet, ih h.2]

theorem storeGet_storeDelete_ne (t t' : Token) (s : Store) (h : t' ≠ t) :
    storeGet t' (storeDelete t s).2 = storeGet t' s := by
  induction s with
  | nil => simp [storeDelete]
  | cons p rest ih =>
      obtain ⟨k, v⟩ := p
      by_cases hk : k = t
      · subst hk
        have h' : ¬ k = t' := fun he => h he.symm
        simp [storeDelete, storeGet, h']
      · simp [storeDelete, hk, storeGet, ih]

theorem storeDelete_fst_eq_isSome (t : Token) (s : Store) :
    (storeDelete t s).1 = (storeGet t s).isSome := by
  induction s with
  | nil => simp [storeDelete, storeGet]
  | cons p rest ih =>
      obtain ⟨k, v⟩ := p
      by_cases hk : k = t
      · simp [storeDelete, storeGet, hk]
      · simp [storeDelete, storeGet, hk, ih]

theorem length_filter_add_length_filter_not (p : Token × SessionData → Bool) (s : Store) :
    (s.filter p).length + (s.filter (fun a => !p a)).length = s.length := by
  induction s with
  | nil => simp
  | cons a rest ih =>
      cases hp : p a <;> simp [List.filter_cons, hp] <;> omega

open AdminAuth

/-! ### Claim theorems -/

/-- A `logout` call always leaves the manager in the state produced by its
`_delete_session` call: every branch of `logout` answers with that state and
never undoes the deletion. -/
theorem logout_state_eq_delete_state (reach : Bool) (t : Token) (st : AuthState) :
    (logout reach t st).2 = (delete_session reach t st).2 := by
  simp only [logout]
  cases hb : (delete_session reach t st).1
  · simp
  · cases hg : get_session reach t (delete_session reach t st).2 <;> simp [hg]

/-- C6: for every (username, password) pair that does not match the configured
admin identity — wrong username or wrong password — `authenticate` returns a
failure carrying the same generic message in both cases, and the session
store is left unchanged: no record is created. -/
theorem authenticate_invalid_credentials_generic (admin_username admin_password_hash : String)
    (checkpw : String → String → Bool) (session_timeout : Int)
    (reach : Bool) (now : Int) (req : LoginRequest) (st : AuthState)
    (h : req.username ≠ admin_username ∨ checkpw req.password admin_password_hash = false) :
    (authenticate admin_username admin_password_hash checkpw session_timeout
        reach now req st).1
      = { success := false, message := "Nom d\x27utilisateur ou mot de passe incorrect",
          token := none } ∧
    (authenticate admin_username admin_password_hash checkpw session_timeout
        reach now req st).2 = st := by
  rcases h with h | h
  · simp [authenticate, h]
  · by_cases hu : req.username = admin_username
    · simp [authenticate, hu, h]
    · simp [authenticate, hu]

/-- Witness for `authenticate_invalid_credentials_generic`: a concrete wrong
password against the configured identity leaves the store empty and yields
the generic failure. -/
theorem authenticate_invalid_credentials_generic_witness :
    (authenticate "admin" "hash" (fun _ _ => false) 100 false 0
        { username := "admin", password := "wrong" } demoState).1
      = { success := false, message := "Nom d\x27utilisateur ou mot de passe incorrect",
          token := none } ∧
    (authenticate "admin" "hash" (fun _ _ => false) 100 false 0
        { username := "admin", password := "wrong" } demoState).2 = demoState :=
  authenticate_invalid_credentials_generic "admin" "hash" (fun _ _ => false) 100 false 0
    { username := "admin", password := "wrong" } demoState (Or.inr rfl)

/-- C7: on the in-process store, `sweep` (`_cleanup_expired_sessions`) keeps a
sublist of the original records (nothing added or altered), keeps an entry
exactly when its `expires_at < now` fails, reports exactly the number of
removed records, and a second sweep at the same clock reading reports 0. -/
theorem sweep_removes_exactly_expired (now : Int) (st : AuthState)
    (h : st.use_redis = false) :
    ((cleanup_expired_sessions now st).2.active_sessions.Sublist st.active_sessions) ∧
    (∀ p : Token × SessionData,
        p ∈ (cleanup_expired_sessions now st).2.active_sessions ↔
          p ∈ st.active_sessions ∧ ¬ p.2.expires_at < now) ∧
    ((cleanup_expired_sessions now st).1 +
        (cleanup_expired_sessions now st).2.active_sessions.length
      = st.active_sessions.length) ∧
    (cleanup_expired_sessions now (cleanup_expired_sessions now st).2).1 = 0 := by
  refine ⟨?_, ?_, ?_, ?_⟩
  · simp only [cleanup_expired_sessions, h]
    simp only [Bool.false_eq_true, if_false]
    exact List.filter_sublist _
  · intro p
    simp [cleanup_expired_sessions, h, List.mem_filter, gt_iff_lt]
  · simp only [cleanup_expired_sessions, h, Bool.false_eq_true, if_false]
    exact length_filter_add_length_filter_not _ _
  · simp only [cleanup_expired_sessions, h, Bool.false_eq_true, if_false]
    simp [List.filter_filter]

/-- Witness for `sweep_removes_exactly_expired` at a concrete state: at
`now = 50` the single record expiring at 100 survives and both sweeps report
the right counts. -/
theorem sweep_removes_exactly_expired_witness :
    ((cleanup_expired_sessions 50 demoState).2.active_sessions.Sublist
        demoState.active_sessions) ∧
    (∀ p : Token × SessionData,
        p ∈ (cleanup_expired_sessions 50 demoState).2.active_sessions ↔
          p ∈ demoState.active_sessions ∧ ¬ p.2.expires_at < 50) ∧
    ((cleanup_expired_sessions 50 demoState).1 +
        (cleanup_expired_sessions 50 demoState).2.active_sessions.length
      = demoState.active_sessions.length) ∧
    (cleanup_expired_sessions 50 (cleanup_expired_sessions 50 demoState).2).1 = 0 :=
  sweep_removes_exactly_expired 50 demoState rfl

/-- C9: whatever success flag and message `logout` ends up answering, when the
store held a live record under the token, the store no longer holds one
after the call: the deletion precedes the computation of the result and is
never rolled back. -/
theorem logout_record_gone_regardless_of_result (reach : Bool) (t : Token)
    (st : AuthState) (d : SessionData)
    (h : st.use_redis = false)
    (hnd : (st.active_sessions.map Prod.fst).Nodup)
    (hget : storeGet t st.active_sessions = some d) :
    storeGet t (logout reach t st).2.active_sessions = none := by
  rw [logout_state_eq_delete_state]
  simp only [delete_session, h, Bool.false_eq_true, if_false]
  exact storeGet_storeDelete_self t st.active_sessions hnd

/-- Witness for `logout_record_gone_regardless_of_result`: after logging out
the live `demoToken`, the store holds no record under it. -/
theorem logout_record_gone_regardless_of_result_witness :
    storeGet demoToken (logout false demoToken demoState).2.active_sessions = none :=
  logout_record_gone_regardless_of_result false demoToken demoState demoData rfl
    (by decide) (by decide)

/-- C4 counterexample: with `session_timeout = 10` and a record issued at 0
(so `expires_at = 10`), `validate_session` at the instant
`now = issuedAt + session_timeout = 10` still returns the record.  The claim
requires the token to be invalid at exactly that instant, but the source
expires only on the strict comparison `time.time() > expires_at`. -/
theorem validate_at_exact_timeout_counterexample :
    (validate_session 10 false 10 demoTokenB demoStateB).1 = some demoDataB ∧
    ¬ (validate_session 10 false 10 demoTokenB demoStateB).1 = none := by decide

/-- C4 amended: for a stored record with `expires_at = issuedAt +
session_timeout`, `validate_session` treats the token as valid exactly when
`now ≤ issuedAt + session_timeout` and as absent exactly when
`issuedAt + session_timeout < now`; at the boundary instant the token is
still valid. -/
theorem validate_valid_iff_le_boundary (session_timeout issuedAt now : Int) (reach : Bool)
    (t : Token) (st : AuthState) (d : SessionData)
    (h : st.use_redis = false)
    (hget : storeGet t st.active_sessions = some d)
    (hexp : d.expires_at = issuedAt + session_timeout) :
    ((validate_session session_timeout reach now t st).1 = some d ↔
        now ≤ issuedAt + session_timeout) ∧
    ((validate_session session_timeout reach now t st).1 = none ↔
        issuedAt + session_timeout < now) := by
  have hg : get_session reach t st = some d := by
    simp [get_session, h, hget]
  have hv : (validate_session session_timeout reach now t st).1
      = if d.expires_at < now then none else some d := by
    simp only [validate_session, hg]
    by_cases hn : d.expires_at < now
    · simp [hn, gt_iff_lt]
    · simp [hn, gt_iff_lt]
  rw [hv, hexp]
  by_cases hn : issuedAt + session_timeout < now <;> simp [hn] <;> omega

/-- Witness for `validate_valid_iff_le_boundary` at `session_timeout = 10`,
`issuedAt = 0`, `now = 3` on the live record `demoDataB`. -/
theorem validate_valid_iff_le_boundary_witness :
    ((validate_session 10 false 3 demoTokenB demoStateB).1 = some demoDataB ↔
        (3 : Int) ≤ 0 + 10) ∧
    ((validate_session 10 false 3 demoTokenB demoStateB).1 = none ↔
        (0 : Int) + 10 < 3) :=
  validate_valid_iff_le_boundary 10 0 3 false demoTokenB demoStateB demoDataB rfl
    (by decide) (by decide)

/-- C10 counterexample: refreshing the live token `demoTokenB` at its own
signing instant (`now = 0`, timeout 10) re-computes `expires_at = 0 + 10`,
so `serializer.dumps` re-mints the *identical* token; the put-new-then-
delete-old sequence then deletes the just-written entry, and no record at
all remains under the returned token — the claim's "the record stored under
the returned token t2 has the same username and login_time" is false there
because no such record exists. -/
theorem refresh_at_signing_instant_counterexample :
    (refresh_session 10 false 0 demoTokenB demoStateB).1 = some demoTokenB ∧
    storeGet demoTokenB
        (refresh_session 10 false 0 demoTokenB demoStateB).2.active_sessions = none ∧
    (refresh_session 10 false 0 demoTokenB demoStateB).2.active_sessions = [] := by decide

/-- C10 amended: `refresh_session` on a live record changes only
`expires_at`, provided the freshly minted token differs from the old one
(which holds whenever the refresh clock reading differs from the old token's
signing time): the record stored under the returned token carries the same
`username` and the same `login_time` as the record that was stored under the
old token.  (At the excluded token-collision inputs the delete removes the
just-written entry and no record remains under the returned token, per the
counterexample above.) -/
theorem refresh_changes_only_expiry (session_timeout now : Int) (reach : Bool)
    (t1 : Token) (st : AuthState) (d : SessionData)
    (h : st.use_redis = false)
    (hget : storeGet t1 st.active_sessions = some d)
    (hne : serializer_dumps { d with expires_at := now + session_timeout } now ≠ t1) :
    (refresh_session session_timeout reach now t1 st).1
      = some (serializer_dumps { d with expires_at := now + session_timeout } now) ∧
    storeGet (serializer_dumps { d with expires_at := now + session_timeout } now)
        (refresh_session session_timeout reach now t1 st).2.active_sessions
      = some { username := d.username, login_time := d.login_time,
               expires_at := now + session_timeout } := by
  have hg : get_session reach t1 st = some d := by
    simp [get_session, h, hget]
  have hstate : (refresh_session session_timeout reach now t1 st).2.active_sessions
      = (storeDelete t1
          (storePut (serializer_dumps { d with expires_at := now + session_timeout } now)
            { d with expires_at := now + session_timeout } st.active_sessions)).2 := by
    simp [refresh_session, hg, store_session, delete_session, h, serializer_dumps]
  constructor
  · simp [refresh_session, hg]
  · rw [hstate, storeGet_storeDelete_ne _ _ _ hne, storeGet_storePut_self]

/-- Witness for `refresh_changes_only_expiry`: refreshing `demoTokenB` at
`now = 5` with `session_timeout = 10` keeps username and login time. -/
theorem refresh_changes_only_expiry_witness :
    (refresh_session 10 false 5 demoTokenB demoStateB).1
      = some (serializer_dumps { demoDataB with expires_at := 5 + 10 } 5) ∧
    storeGet (serializer_dumps { demoDataB with expires_at := 5 + 10 } 5)
        (refresh_session 10 false 5 demoTokenB demoStateB).2.active_sessions
      = some { username := demoDataB.username, login_time := demoDataB.login_time,
               expires_at := 5 + 10 } :=
  refresh_changes_only_expiry 10 5 false demoTokenB demoStateB demoDataB rfl
    (by decide) (by decide)

/-- C1: after a successful `logout(t)` has removed the session record, a
subsequent `validate_session(t)` does NOT return absent: because the store
lookup now misses, the manager falls back to `serializer.loads`, which still
verifies `t` inside its self-contained age window (here `now = 50` with
`session_timeout = 100`), re-admits the revoked token into the store and
returns its record — the manager honors the revoked token via the codec
fallback, the very behaviour the claim rules out. -/
theorem logout_then_validate_resurrects :
    (logout false demoToken demoState).2.active_sessions = [] ∧
    (validate_session 100 false 50 demoToken (logout false demoToken demoState).2).1
      = some demoData := by decide

/-- C2: when the store holds a live record under the token, `logout` deletes
the record but does not return the success ("revoked") result: the source
then evaluates `self._get_session(token).get("username", "unknown")` on the
just-deleted token, so `_get_session` yields `None`, the attribute access
raises, and the catch-all answers a third result kind,
`success = False, "Erreur lors de la déconnexion"` — the success branch of
`logout` is unreachable. -/
theorem logout_live_session_returns_error :
    storeGet demoToken demoState.active_sessions = some demoData ∧
    (logout false demoToken demoState).1
      = { success := false, message := "Erreur lors de la déconnexion" } ∧
    (logout false demoToken demoState).2.active_sessions = [] := by decide

/-- C3 counterexample: refreshing the live token `demoTokenB` at `now = 5`
(timeout 10) completes — the old entry is deleted from the store — yet
`validate_session` on the old token afterwards returns the old record (the
codec fallback re-admits it), where the claim requires it to return
absent once the refresh has completed. -/
theorem validate_old_token_after_refresh_counterexample :
    (refresh_session 10 false 5 demoTokenB demoStateB).1
      = some (Token.signed { username := "admin", login_time := 0, expires_at := 15 } 5) ∧
    (validate_session 10 false 5 demoTokenB
        (refresh_session 10 false 5 demoTokenB demoStateB).2).1 = some demoDataB ∧
    ¬ (validate_session 10 false 5 demoTokenB
        (refresh_session 10 false 5 demoTokenB demoStateB).2).1 = none := by decide

/-- C3 amended: for a live record under `t1 = Token.signed dsig ts`,
`refresh_session` returns a fresh token `t2 ≠ t1` (the clock reading `now`
differs from `ts`), writes the new record under `t2` before deleting the old
entry (the final store is delete-old applied after put-new), and
`validate_session(t2)` succeeds; but `validate_session(t1)` does not fail
once the refresh completes: while `t1` is inside its self-contained age
window (`now - ts ≤ session_timeout`) the codec fallback re-admits it and
returns the old payload. -/
theorem refresh_amended (session_timeout now ts : Int) (reach : Bool)
    (dsig d : SessionData) (st : AuthState)
    (h : st.use_redis = false)
    (hnd : (st.active_sessions.map Prod.fst).Nodup)
    (hget : storeGet (Token.signed dsig ts) st.active_sessions = some d)
    (hts : ts ≠ now)
    (hT : 0 ≤ session_timeout)
    (hwin : now - ts ≤ session_timeout) :
    (refresh_session session_timeout reach now (Token.signed dsig ts) st).1
      = some (serializer_dumps { d with expires_at := now + session_timeout } now) ∧
    serializer_dumps { d with expires_at := now + session_timeout } now
      ≠ Token.signed dsig ts ∧
    (refresh_session session_timeout reach now (Token.signed dsig ts) st).2.active_sessions
      = (storeDelete (Token.signed dsig ts)
          (storePut (serializer_dumps { d with expires_at := now + session_timeout } now)
            { d with expires_at := now + session_timeout } st.active_sessions)).2 ∧
    (validate_session session_timeout reach now
        (serializer_dumps { d with expires_at := now + session_timeout } now)
        (refresh_session session_timeout reach now (Token.signed dsig ts) st).2).1
      = some { d with expires_at := now + session_timeout } ∧
    (validate_session session_timeout reach now (Token.signed dsig ts)
        (refresh_session session_timeout reach now (Token.signed dsig ts) st).2).1
      = some dsig := by
  have hne : serializer_dumps { d with expires_at := now + session_timeout } now
      ≠ Token.signed dsig ts := by
    simp only [serializer_dumps, ne_eq, Token.signed.injEq, not_and]
    intro _ he
    exact hts he.symm
  have hg : get_session reach (Token.signed dsig ts) st = some d := by
    simp [get_session, h, hget]
  have hstate : (refresh_session session_timeout reach now (Token.signed dsig ts) st).2
      = { st with active_sessions :=
            (storeDelete (Token.signed dsig ts)
              (storePut (serializer_dumps { d with expires_at := now + session_timeout } now)
                { d with expires_at := now + session_timeout } st.active_sessions)).2 } := by
    simp [refresh_session, hg, store_session, delete_session, h, serializer_dumps]
  have hget2 : storeGet (serializer_dumps { d with expires_at := now + session_timeout } now)
      (refresh_session session_timeout reach now (Token.signed dsig ts) st).2.active_sessions
      = some { d with expires_at := now + session_timeout } := by
    rw [hstate]
    simp only []
    rw [storeGet_storeDelete_ne _ _ _ hne, storeGet_storePut_self]
  have hget1 : storeGet (Token.signed dsig ts)
      (refresh_session session_timeout reach now (Token.signed dsig ts) st).2.active_sessions
      = none := by
    rw [hstate]
    simp only []
    exact storeGet_storeDelete_self _ _
      (keys_nodup_storePut _ _ _ hnd)
  have huse : (refresh_session session_timeout reach now (Token.signed dsig ts) st).2.use_redis
      = false := by
    rw [hstate]
    exact h
  refine ⟨?_, hne, ?_, ?_, ?_⟩
  · simp [refresh_session, hg]
  · rw [hstate]
  · -- validate(t2) finds the fresh record, not expired since 0 ≤ session_timeout
    have hg2 : get_session reach
        (serializer_dumps { d with expires_at := now + session_timeout } now)
        (refresh_session session_timeout reach now (Token.signed dsig ts) st).2
        = some { d with expires_at := now + session_timeout } := by
      simp [get_session, huse, hget2]
    simp only [validate_session, hg2]
    have : ¬ now > ({ d with expires_at := now + session_timeout } : SessionData).expires_at := by
      simp only [gt_iff_lt]
      omega
    simp [this]
  · -- validate(t1): absent from the store, re-admitted through the codec fallback
    have hg1 : get_session reach (Token.signed dsig ts)
        (refresh_session session_timeout reach now (Token.signed dsig ts) st).2 = none := by
      simp [get_session, huse, hget1]
    have hloads : serializer_loads (Token.signed dsig ts) session_timeout now
        = Except.ok dsig := by
      simp only [serializer_loads]
      rw [if_neg]
      omega
    simp only [validate_session, hg1, hloads]
    simp [get_session, store_session, huse, storeGet_storePut_self]

/-- Witness for `refresh_amended`: refreshing `demoTokenB` (signed at 0) at
`now = 5` with timeout 10, the old token still validates afterwards. -/
theorem refresh_amended_witness :
    (0 : Int) ≤ 10 ∧ (5 : Int) - 0 ≤ 10 ∧
    (validate_session 10 false 5 (Token.signed demoDataB 0)
        (refresh_session 10 false 5 (Token.signed demoDataB 0) demoStateB).2).1
      = some demoDataB :=
  ⟨by decide, by decide,
    (refresh_amended 10 5 0 false demoDataB demoDataB demoStateB rfl (by decide)
      (by decide) (by decide) (by decide) (by decide)).2.2.2.2⟩

/-- C5 counterexample: when the networked backend is configured but
unreachable at `__init__` (the initial `ping()` fails), `use_redis` is set
`False` permanently; a later `_store_session` call made while Redis is
reachable again still writes only to the in-memory dict and leaves the
networked store untouched — the fallback decision is sticky at
initialization and the manager does not resume the networked backend. -/
theorem init_unreachable_fallback_is_sticky :
    (initState true false 0).use_redis = false ∧
    (store_session true demoToken demoData (initState true false 0)).2.redis_store = [] ∧
    (store_session true demoToken demoData (initState true false 0)).2.active_sessions
      = [(demoToken, demoData)] := by decide

/-- C5 amended: an outage at call time is handled per call — with
`use_redis = True`, an unreachable call succeeds via the in-memory fallback,
leaves the networked store and the `use_redis` flag untouched, and the next
reachable call uses the networked backend again; but an outage at
initialization is sticky — with `use_redis = False`, even reachable calls
use only the in-memory store. -/
theorem store_fallback_per_call_amended (t : Token) (d : SessionData)
    (st stInitFail : AuthState)
    (h : st.use_redis = true) (h' : stInitFail.use_redis = false) :
    (store_session false t d st).1 = true ∧
    (store_session false t d st).2.active_sessions = storePut t d st.active_sessions ∧
    (store_session false t d st).2.redis_store = st.redis_store ∧
    (store_session false t d st).2.use_redis = true ∧
    get_session false t st = storeGet t st.active_sessions ∧
    (delete_session false t st).2.redis_store = st.redis_store ∧
    (store_session true t d st).2.redis_store = storePut t d st.redis_store ∧
    get_session true t st = storeGet t st.redis_store ∧
    (store_session true t d stInitFail).2.redis_store = stInitFail.redis_store ∧
    (store_session true t d stInitFail).2.active_sessions
      = storePut t d stInitFail.active_sessions := by
  simp [store_session, get_session, delete_session, h, h']

/-- Witness for `store_fallback_per_call_amended` on `demoRedisState`
(initialized with Redis reachable) and `initState true false 0` (initialized
with Redis unreachable). -/
theorem store_fallback_per_call_amended_witness :
    (store_session false demoToken demoData demoRedisState).1 = true ∧
    (store_session false demoToken demoData demoRedisState).2.active_sessions
      = storePut demoToken demoData demoRedisState.active_sessions ∧
    (store_session false demoToken demoData demoRedisState).2.redis_store
      = demoRedisState.redis_store ∧
    (store_session false demoToken demoData demoRedisState).2.use_redis = true ∧
    get_session false demoToken demoRedisState
      = storeGet demoToken demoRedisState.active_sessions ∧
    (delete_session false demoToken demoRedisState).2.redis_store
      = demoRedisState.redis_store ∧
    (store_session true demoToken demoData demoRedisState).2.redis_store
      = storePut demoToken demoData demoRedisState.redis_store ∧
    get_session true demoToken demoRedisState
      = storeGet demoToken demoRedisState.redis_store ∧
    (store_session true demoToken demoData (initState true false 0)).2.redis_store
      = (initState true false 0).redis_store ∧
    (store_session true demoToken demoData (initState true false 0)).2.active_sessions
      = storePut demoToken demoData (initState true false 0).active_sessions :=
  store_fallback_per_call_amended demoToken demoData demoRedisState
    (initState true false 0) rfl (by decide)
